import Mathlib

/-!
Verification development for the cache-aware analytics pipeline
(Executor / SnapshotCache / InsightAgent / DashboardAgent).

The Python sources are shallowly embedded: pure functions become Lean
functions, filesystem and collaborator effects become explicit state and
event traces, pandas dataframes become ordered lists of typed columns,
Python floats are idealized as exact rationals, and missing values
(None / NaN / NaT) become `Option`.  External collaborators (the sha256
digest from `hashlib`, the SQL runner `run_sql_query`, the DuckDB catalog,
and the float Pearson-correlation kernel of `DataFrame.corr`) are taken
as parameters: every theorem quantifies over them, since no claim depends
on their internals.
-/

/-- Python scalar values as they appear in request params, metric dicts and
visual dicts (`int`, `str`, `float`, `None`; floats idealized as `ℚ`). -/
inductive PyAtom
  | pynull
  | pystr (s : String)
  | pyint (n : ℤ)
  | pyrat (q : ℚ)
  deriving DecidableEq

/-- A Python value that is either a scalar or a (one-level) list of scalars;
this is the shape plan visuals use for their `x`/`y` fields. -/
inductive PyVal
  | atom (a : PyAtom)
  | plist (xs : List PyAtom)
  deriving DecidableEq

/-- Python `repr` of a scalar (string quoting and float rendering idealized;
no claim depends on the exact characters, only on determinism). -/
def pyReprAtom : PyAtom → String
  | .pynull => "None"
  | .pystr s => "\x27" ++ s ++ "\x27"
  | .pyint n => toString n
  | .pyrat q => toString q

/-- Python truthiness for the modelled values (`or` defaulting in the source). -/
def pyTruthy : PyVal → Bool
  | .atom .pynull => false
  | .atom (.pystr s) => s ≠ ""
  | .atom (.pyint n) => n ≠ 0
  | .atom (.pyrat q) => q ≠ 0
  | .plist xs => xs ≠ []

/-- Python `str()` of a modelled value. -/
def pyStr : PyVal → String
  | .atom (.pystr s) => s
  | .atom a => pyReprAtom a
  | .plist xs => "[" ++ String.intercalate ", " (xs.map pyReprAtom) ++ "]"

/-- Python `str.strip()`: drop leading and trailing whitespace (structural
recursion, so that concrete instances evaluate in the kernel). -/
def pyStrip (s : String) : String :=
  String.mk (((s.data.dropWhile Char.isWhitespace).reverse.dropWhile
    Char.isWhitespace).reverse)

/-- Python `str.lower()` (ASCII lowering, as used on chart-type names). -/
def pyLower (s : String) : String := String.mk (s.data.map Char.toLower)

/-! ### Executor._cache_key (src/agents/executor.py lines 25-27) -/

/-- Key order used by Python `sorted` on `params.items()`: tuples compare by
first component first; dict keys are distinct, so the value component is
never consulted and ordering by key alone is the exact behaviour. -/
def keyLe (a b : String × PyAtom) : Prop := a.1 ≤ b.1

instance decKeyLe : DecidableRel keyLe := fun a b =>
  inferInstanceAs (Decidable (a.1 ≤ b.1))

instance totalKeyLe : IsTotal (String × PyAtom) keyLe :=
  ⟨fun a b => le_total a.1 b.1⟩

instance transKeyLe : IsTrans (String × PyAtom) keyLe :=
  ⟨fun _ _ _ h1 h2 => le_trans h1 h2⟩

/-- `sorted((params or {}).items())`. -/
def sortParams (ps : List (String × PyAtom)) : List (String × PyAtom) :=
  List.insertionSort keyLe ps

/-- Python `repr` of the sorted items list: `[(k, v), ...]`. -/
def reprPairs (ps : List (String × PyAtom)) : String :=
  "[" ++ String.intercalate ", "
    (ps.map (fun p => "(" ++ pyReprAtom (.pystr p.1) ++ ", " ++ pyReprAtom p.2 ++ ")"))
  ++ "]"

/-- The byte payload hashed by `Executor._cache_key`:
`sql + "|" + repr(sorted((params or {}).items()))`. -/
def cacheKeyPayload (sql : String) (ps : List (String × PyAtom)) : String :=
  sql ++ "|" ++ reprPairs (sortParams ps)

/-- `Executor._cache_key`: sha256 hex digest of the payload.  `hashlib.sha256`
is external library code and is passed in as the deterministic `digest`
function; every theorem below holds for an arbitrary digest. -/
def cache_key (digest : String → String) (sql : String)
    (ps : List (String × PyAtom)) : String :=
  digest (cacheKeyPayload sql ps)

/-! ### DataFrame model (pandas, as used by this pipeline) -/

/-- A datetime64 value: calendar day (as an ordinal) plus time of day.
`groupby` on `.dt.date` keys on `day` alone. -/
structure DT where
  day : ℤ
  tick : ℕ
  deriving DecidableEq

/-- Column payload with its pandas dtype class: numeric, string/object,
datetime64, or an unsupported dtype (only its length is relevant).
Missing entries (NaN / None / NaT) are `none`. -/
inductive ColData
  | numeric (vals : List (Option ℚ))
  | strings (vals : List (Option String))
  | datetime (vals : List (Option DT))
  | other (len : ℕ)
  deriving DecidableEq

def ColData.length : ColData → ℕ
  | .numeric v => v.length
  | .strings v => v.length
  | .datetime v => v.length
  | .other n => n

/-- A dataframe: ordered columns, each a name with typed data. -/
structure DataFrame where
  cols : List (String × ColData)
  deriving DecidableEq

/-- `len(df)`: number of rows (length of the first column; 0 if no columns). -/
def nrows (df : DataFrame) : ℕ :=
  match df.cols with
  | [] => 0
  | c :: _ => c.2.length

def ncols (df : DataFrame) : ℕ := df.cols.length

def colNames (df : DataFrame) : List String := df.cols.map Prod.fst

/-- `df[name]`: the first column carrying that label. -/
def colFind (df : DataFrame) (n : String) : Option ColData :=
  (df.cols.find? (fun c => c.1 == n)).map Prod.snd

/-- Numeric columns with their data, in schema order (`is_numeric_dtype`). -/
def numColsData (df : DataFrame) : List (String × List (Option ℚ)) :=
  df.cols.filterMap (fun c => match c.2 with
    | .numeric v => some (c.1, v)
    | _ => none)

/-- String/object columns with their data (`is_string_dtype` or object). -/
def catColsData (df : DataFrame) : List (String × List (Option String)) :=
  df.cols.filterMap (fun c => match c.2 with
    | .strings v => some (c.1, v)
    | _ => none)

/-- Datetime columns with their data (`is_datetime64_any_dtype`). -/
def dateColsData (df : DataFrame) : List (String × List (Option DT)) :=
  df.cols.filterMap (fun c => match c.2 with
    | .datetime v => some (c.1, v)
    | _ => none)

def numericCols (df : DataFrame) : List String := (numColsData df).map Prod.fst
def catCols (df : DataFrame) : List String := (catColsData df).map Prod.fst
def dateCols (df : DataFrame) : List String := (dateColsData df).map Prod.fst

/-! ### SnapshotCache (src/cache/snapshot_cache.py) -/

/-- State of one path on disk: missing, present but unreadable as Parquet,
or a good snapshot. -/
inductive FileState
  | absent
  | corrupt
  | good (df : DataFrame)

/-- The cache directory's filesystem, as a map from path to file state. -/
structure FS where
  files : String → FileState

/-- `SnapshotCache.path_for_key`: `<cacheDir>/<key>.parquet`. -/
def path_for_key (dir key : String) : String := dir ++ "/" ++ key ++ ".parquet"

/-- `path.exists()`. -/
def pathExists : FileState → Bool
  | .absent => false
  | _ => true

/-- `pd.read_parquet`: succeeds only on a good snapshot, raises otherwise. -/
def read_parquet : FileState → Except String DataFrame
  | .good df => .ok df
  | .corrupt => .error "parquet decode error"
  | .absent => .error "file not found"

/-- `SnapshotCache.get`: absent path is a miss; a read failure is caught
(`except Exception: return None`) and degrades to a miss. -/
def SnapshotCache.get (fs : FS) (dir key : String) : Option DataFrame :=
  let st := fs.files (path_for_key dir key)
  if pathExists st then
    match read_parquet st with
    | .ok df => some df
    | .error _ => none
  else none

/-- `SnapshotCache.put`: whole-file overwrite at the key's path. -/
def SnapshotCache.put (fs : FS) (dir key : String) (df : DataFrame) : FS :=
  ⟨fun p => if p = path_for_key dir key then .good df else fs.files p⟩

/-! ### Executor.run (src/agents/executor.py lines 29-82) -/

/-- The configuration fields `Executor.run` reads from `Settings`. -/
structure ExecSettings where
  OFFLINE_ONLY : Bool
  QUERY_TIMEOUT_SECONDS : ℤ
  MAX_RETURNED_ROWS : ℤ
  CACHE_DIR : String

/-- Execution metadata returned by `run` (the wall-clock `seconds` field is
real time and is not modelled). -/
structure ExecMeta where
  cache_key : String
  cache_hit : Bool
  rows : ℕ
  mode : String
  deriving DecidableEq

/-- Observable side effects of one `run` call, in order: a call to the
external SQL runner, a cache write, a DuckDB catalog registration. -/
inductive Event
  | dbExecute (sql : String) (params : List (String × PyAtom))
  | cachePut (key : String)
  | registerParquet (name path : String)
  deriving DecidableEq

/-- Outcome of `Executor.run`: the returned value or the raised error,
the effect trace, and the cache filesystem after the call. -/
structure RunOut where
  result : Except String (DataFrame × ExecMeta)
  events : List Event
  fs : FS

/-- `Executor.run`.  `db` is the external `run_sql_query` collaborator and
`digest` the sha256 digest; both are parameters of the embedding. -/
def Executor.run (st : ExecSettings)
    (db : String → List (String × PyAtom) → ℤ → ℤ → DataFrame)
    (digest : String → String) (fs : FS)
    (sql : String) (params : List (String × PyAtom)) : RunOut :=
  let key := cache_key digest sql params
  match SnapshotCache.get fs st.CACHE_DIR key with
  | some df =>
      { result := .ok (df, ⟨key, true, nrows df, "cache"⟩)
        events := [.registerParquet key (path_for_key st.CACHE_DIR key)]
        fs := fs }
  | none =>
      if st.OFFLINE_ONLY then
        { result := .error ("OFFLINE_ONLY is enabled and no cache snapshot exists for this query. " ++
            "Run once online (or create snapshots) to populate cache.")
          events := []
          fs := fs }
      else
        let df := db sql params st.QUERY_TIMEOUT_SECONDS st.MAX_RETURNED_ROWS
        { result := .ok (df, ⟨key, false, nrows df, "db"⟩)
          events := [.dbExecute sql params, .cachePut key,
                     .registerParquet key (path_for_key st.CACHE_DIR key)]
          fs := SnapshotCache.put fs st.CACHE_DIR key df }

/-! ### Numeric formatting (InsightAgent._fmt, src/agents/insight_agent.py 180-196)

Python floats are idealized as exact rationals, so the NaN/inf branch of
`_fmt` cannot arise in the embedding; rounding of `:.2f` / `:.4f` is
modelled as round-half-to-even on the exact rational. -/

/-- Insert a thousands separator every three digits (`{v:,}` grouping). -/
def commaGroupAux : List Char → List Char
  | a :: b :: c :: d :: rest => a :: b :: c :: ',' :: commaGroupAux (d :: rest)
  | l => l

def commaGroup (s : String) : String :=
  String.mk (commaGroupAux s.data.reverse).reverse

/-- `f"{n:,}"` for a natural number. -/
def intComma (n : ℕ) : String := commaGroup (toString n)

/-- Floor of a rational (flooring integer division of numerator by
denominator; spelled out so concrete instances evaluate in the kernel). -/
def ratFloor (q : ℚ) : ℤ := Int.fdiv q.num q.den

/-- Round half to even (the rounding used by Python float formatting). -/
def rhe (q : ℚ) : ℤ :=
  let f := ratFloor q
  if q - f < 1/2 then f
  else if 1/2 < q - f then f + 1
  else if f % 2 = 0 then f else f + 1

def padZeros (s : String) (n : ℕ) : String :=
  if n ≤ s.length then s else String.mk (List.replicate (n - s.length) '0') ++ s

/-- Fixed-point rendering with `d` decimals; `grouped` adds the thousands
separators of `{v:,.2f}`. -/
def fixedFmt (d : ℕ) (grouped : Bool) (v : ℚ) : String :=
  let scaled := rhe (v * ((10 : ℚ) ^ d))
  let sign := if scaled < 0 then "-" else ""
  let m := scaled.natAbs
  let ip := m / 10 ^ d
  let fp := m % 10 ^ d
  let ipStr := if grouped then commaGroup (toString ip) else toString ip
  if d = 0 then sign ++ ipStr else sign ++ ipStr ++ "." ++ padZeros (toString fp) d

/-- `InsightAgent._fmt` on a numeric value. -/
def fmt (v : ℚ) : String :=
  if 1000000000 ≤ |v| then fixedFmt 2 false (v / 1000000000) ++ "B"
  else if 1000000 ≤ |v| then fixedFmt 2 false (v / 1000000) ++ "M"
  else if 1000 ≤ |v| then fixedFmt 2 false (v / 1000) ++ "K"
  else if |v| < 1 then fixedFmt 4 false v
  else fixedFmt 2 true v

/-! ### InsightAgent report shapes (src/agents/insight_agent.py 13-21) -/

structure KPI where
  title : String
  value : String
  context : String
  deriving DecidableEq

structure DistTop where
  label : String
  count : ℕ
  deriving DecidableEq

structure DistEntry where
  column : String
  top : List DistTop
  deriving DecidableEq

/-- One trend point; the calendar date is kept as its ordinal (the source
renders it as `str(date)`, pure presentation). -/
structure TrendPoint where
  date : ℤ
  value : ℚ
  deriving DecidableEq

structure Trend where
  time_field : String
  metric : String
  points : List TrendPoint
  note : String
  deriving DecidableEq

structure CorrEntry where
  a : String
  b : String
  corr : ℚ
  deriving DecidableEq

structure Report where
  kpis : List KPI
  summary : String
  distributions : List DistEntry
  trends : List Trend
  correlations : List CorrEntry
  warnings : List String
  deriving DecidableEq

/-! ### Plan (caller intent consumed by both agents) -/

/-- One entry of `plan["metrics"]`: either not a dict (silently skipped) or a
dict read through `m.get("name"/"agg"/"field")`.  `agg` is kept as an
optional string: a non-string truthy `agg` value would raise in the source
(`.lower()` on a non-string) and is outside the model. -/
inductive MetricEntry
  | notDict
  | dict (name : PyVal) (agg : Option String) (field : PyVal)
  deriving DecidableEq

/-- One entry of `plan["visuals"]`: either not a dict or a dict read through
`v.get("type"/"title"/"x"/"y")`.  As with `agg`, a non-string truthy `type`
would raise in the source and is outside the model. -/
inductive VisualEntry
  | notDict
  | dict (vtype : Option String) (title : PyVal) (x : PyVal) (y : PyVal)
  deriving DecidableEq

/-- The plan dict.  `none` models a present-but-non-list value (the sources
guard with `isinstance(..., list)`); a missing key defaults to `some []`. -/
structure Plan where
  metrics : Option (List MetricEntry)
  visuals : Option (List VisualEntry)

/-! ### InsightAgent._kpis_from_plan (src/agents/insight_agent.py 123-178) -/

/-- KPIs contributed by one plan metric entry (the body of the `for m in
metrics` loop; zero or one KPI per entry). -/
def metricKpi (df : DataFrame) (m : MetricEntry) : List KPI :=
  match m with
  | .notDict => []
  | .dict name aggOpt field =>
    match name with
    | .atom (.pystr n) =>
      if pyStrip n = "" then []
      else
        match colFind df n with
        | some (.numeric vals) =>
          match vals.filterMap id with
          | [] => []
          | x :: xs =>
            [⟨n, fmt (if xs = [] then x else (x :: xs).sum), "From query"⟩]
        | _ =>
          match field with
          | .atom (.pystr f) =>
            match colFind df f with
            | some (.numeric fvals) =>
              match fvals.filterMap id with
              | [] => []
              | x :: xs =>
                let s := x :: xs
                let agg := pyStrip (pyLower (aggOpt.getD ""))
                let pair : ℚ × String :=
                  if agg = "sum" then (s.sum, "SUM(" ++ f ++ ")")
                  else if agg = "avg" ∨ agg = "mean" then
                    (s.sum / (s.length : ℚ), "AVG(" ++ f ++ ")")
                  else if agg = "min" then (xs.foldl min x, "MIN(" ++ f ++ ")")
                  else if agg = "max" then (xs.foldl max x, "MAX(" ++ f ++ ")")
                  else if agg = "count" then ((s.length : ℚ), "COUNT(" ++ f ++ ")")
                  else (s.sum, "SUM(" ++ f ++ ")")
                [⟨n, fmt pair.1, pair.2⟩]
            | _ => []
          | _ => []
    | _ => []

/-- `InsightAgent._kpis_from_plan`: always leads with the Rows card; a
non-list `metrics` value returns just that card. -/
def kpisFromPlan (df : DataFrame) (plan : Plan) : List KPI :=
  let rows : KPI := ⟨"Rows", intComma (nrows df), "Returned rows"⟩
  match plan.metrics with
  | none => [rows]
  | some ms => rows :: ms.flatMap (metricKpi df)

/-- The fallback block of `generate` (lines 45-51): Rows and Columns cards
plus Sum/Avg over the first numeric column.  In the source it is guarded by
`if not kpis:`, which never holds (see the C7 analysis). -/
def fallbackKpis (df : DataFrame) : List KPI :=
  [⟨"Rows", intComma (nrows df), "Returned rows"⟩,
   ⟨"Columns", intComma (ncols df), "Returned columns"⟩] ++
  match numColsData df with
  | [] => []
  | (c, vals) :: _ =>
    let nn := vals.filterMap id
    [⟨"Sum(" ++ c ++ ")", fmt nn.sum, "Total"⟩,
     ⟨"Avg(" ++ c ++ ")",
      (match nn with
       | [] => "NA"
       | _ => fmt (nn.sum / (nn.length : ℚ))), "Mean"⟩]

/-! ### Distributions (src/agents/insight_agent.py 54-62) -/

/-- Distinct elements in first-seen order (the ordering underlying
`value_counts` tie-breaks). -/
def fsdAux [DecidableEq α] (seen : List α) : List α → List α
  | [] => []
  | x :: xs => if x ∈ seen then fsdAux seen xs else x :: fsdAux (x :: seen) xs

def firstSeenDedup [DecidableEq α] (l : List α) : List α := fsdAux [] l

def countDescLe (a b : String × ℕ) : Prop := b.2 ≤ a.2

instance decCountDescLe : DecidableRel countDescLe := fun a b =>
  inferInstanceAs (Decidable (b.2 ≤ a.2))

/-- `Series.value_counts(dropna=False)`: frequencies sorted by descending
count, ties in first-seen order (insertion sort is stable). -/
def valueCounts (l : List String) : List (String × ℕ) :=
  List.insertionSort countDescLe
    ((firstSeenDedup l).map (fun u => (u, l.count u)))

/-- `astype(str)` on a string/object column (missing rendered as `None`). -/
def astypeStr : Option String → String
  | some s => s
  | none => "None"

/-- The distributions loop: first three categorical columns, top 10 counts. -/
def distributionsOf (df : DataFrame) : List DistEntry :=
  ((catColsData df).take 3).map (fun c =>
    ⟨c.1, ((valueCounts (c.2.map astypeStr)).take 10).map (fun p => ⟨p.1, p.2⟩)⟩)

/-! ### Trends (src/agents/insight_agent.py 64-87)

`pd.to_datetime(..., errors="coerce")` on an already-datetime column is the
identity (NaT stays NaT), so `dropna(subset=[tcol])` keeps exactly the rows
whose temporal value is present.  Rows whose numeric value is missing are
NOT dropped: `groupby(...).sum()` skips NaN inside each date group, so a
date all of whose numeric values are missing still appears, with sum 0.
The embedding is total, so the `except` path (warning `trend_calc_failed`)
has no counterpart. -/

def intLe (a b : ℤ) : Prop := a ≤ b

instance decIntLe : DecidableRel intLe := fun a b =>
  inferInstanceAs (Decidable (a ≤ b))

instance totalIntLe : IsTotal ℤ intLe := ⟨fun a b => le_total a b⟩

instance transIntLe : IsTrans ℤ intLe := ⟨fun _ _ _ h1 h2 => le_trans h1 h2⟩

/-- Rows surviving `dropna(subset=[tcol])`, keyed by calendar date. -/
def trendKept (tvals : List (Option DT)) (nvals : List (Option ℚ)) :
    List (ℤ × Option ℚ) :=
  (tvals.zip nvals).filterMap (fun p =>
    match p.1 with
    | some t => some (t.day, p.2)
    | none => none)

/-- The distinct dates of the kept rows, ascending (`sort_index`). -/
def trendDays (kept : List (ℤ × Option ℚ)) : List ℤ :=
  List.insertionSort intLe (firstSeenDedup (kept.map Prod.fst))

/-- `groupby("__date")[ncol].sum().sort_index()`: per-date sums of the
non-missing numeric values, ascending by date. -/
def trendGroups (kept : List (ℤ × Option ℚ)) : List (ℤ × ℚ) :=
  (trendDays kept).map (fun d =>
    (d, ((kept.filter (fun r => r.1 = d)).filterMap Prod.snd).sum))

/-- The trends step of `generate`. -/
def trendsOf (df : DataFrame) : List Trend :=
  match dateColsData df, numColsData df with
  | (tcol, tvals) :: _, (ncol, nvals) :: _ =>
    let kept := trendKept tvals nvals
    if kept = [] then []
    else
      let g := trendGroups kept
      if 3 ≤ g.length then
        [⟨tcol, ncol, ((g.drop (g.length - 60)).map (fun p => ⟨p.1, p.2⟩)),
          "Summed by date"⟩]
      else []
  | _, _ => []

/-! ### Correlations (src/agents/insight_agent.py 89-104)

Pairwise Pearson correlation over floats involves a square root and is kept
abstract: `pcorr` maps the two columns' data to the correlation value, with
`none` for a NaN result (`pd.notna` filter).  The pair enumeration, the
`reverse=True` tuple sort and the top-5 cut are embedded exactly. -/

/-- Upper-triangle pairs `(i, j)` with `i < j`, in loop order. -/
def utPairs : List (String × List (Option ℚ)) →
    List ((String × List (Option ℚ)) × (String × List (Option ℚ)))
  | [] => []
  | a :: rest => rest.map (fun b => (a, b)) ++ utPairs rest

/-- Descending lexicographic order on `(abs, value, a, b)` scored tuples
(Python `list.sort(reverse=True)`). -/
def scoredGe (x y : ℚ × ℚ × String × String) : Prop :=
  y.1 < x.1 ∨ (y.1 = x.1 ∧ (y.2.1 < x.2.1 ∨ (y.2.1 = x.2.1 ∧
    (x.2.2.1 > y.2.2.1 ∨ (x.2.2.1 = y.2.2.1 ∧ y.2.2.2 ≤ x.2.2.2)))))

instance decScoredGe : DecidableRel scoredGe := fun x y => by
  unfold scoredGe; infer_instance

/-- The correlations step of `generate`. -/
def correlationsOf (pcorr : List (Option ℚ) → List (Option ℚ) → Option ℚ)
    (df : DataFrame) : List CorrEntry :=
  let nc := numColsData df
  if 2 ≤ nc.length then
    let scored := (utPairs nc).filterMap (fun p =>
      (pcorr p.1.2 p.2.2).map (fun v => (|v|, v, p.1.1, p.2.1)))
    ((List.insertionSort scoredGe scored).take 5).map
      (fun t => ⟨t.2.2.1, t.2.2.2, t.2.1⟩)
  else []

/-! ### InsightAgent.generate (src/agents/insight_agent.py 24-121) -/

/-- The canonical empty report returned on a zero-row dataframe. -/
def emptyReport : Report :=
  { kpis := [⟨"No Data", "0 rows", "Query returned no records"⟩]
    summary := "No data returned for the query. Adjust filters or table selection."
    distributions := []
    trends := []
    correlations := []
    warnings := ["empty_result"] }

/-- The summary sentence (lines 106-112). -/
def summaryOf (df : DataFrame) (dists : List DistEntry) (trends : List Trend)
    (corrs : List CorrEntry) : String :=
  "Returned " ++ intComma (nrows df) ++ " rows and " ++ intComma (ncols df) ++
      " columns." ++
    (match dists with
     | [] => ""
     | d :: _ => " Strongest categorical breakdown: " ++ d.column ++ ".") ++
    (if trends.isEmpty then "" else " Trend signals detected.") ++
    (match corrs with
     | [] => ""
     | c :: _ => " Strongest numeric relationship: " ++ c.a ++ " vs " ++ c.b ++
         " (corr=" ++ fixedFmt 2 false c.corr ++ ").")

/-- `InsightAgent.generate`.  The embedding is total, so the two swallowed
exception paths (`trend_calc_failed`, `correlation_calc_failed`) have no
counterpart and `warnings` carries at most the large-dataframe advisory. -/
def generate (pcorr : List (Option ℚ) → List (Option ℚ) → Option ℚ)
    (df : DataFrame) (plan : Plan) : Report :=
  if nrows df = 0 then emptyReport
  else
    { kpis :=
        if kpisFromPlan df plan = [] then fallbackKpis df
        else kpisFromPlan df plan
      summary := summaryOf df (distributionsOf df) (trendsOf df)
        (correlationsOf pcorr df)
      distributions := distributionsOf df
      trends := trendsOf df
      correlations := correlationsOf pcorr df
      warnings :=
        if 2000000 < nrows df then ["large_dataframe_memory_risk"] else [] }

/-! ### DashboardAgent chart specs (src/agents/dashboard_agent.py 60-164) -/

def allowedChartTypes : List String := ["line", "bar", "scatter", "area", "hist"]

/-- `v.get("type") or "line"`: a missing or falsy (empty-string) type
defaults to `"line"`. -/
def rawChartType (t : Option String) : String :=
  match t with
  | none => "line"
  | some s => if s = "" then "line" else s

/-- `(v.get("type") or "line").lower().strip()` followed by the clamp of
unrecognized types to `"line"`. -/
def typeClamp (t : Option String) : String :=
  if pyStrip (pyLower (rawChartType t)) ∈ allowedChartTypes then
    pyStrip (pyLower (rawChartType t))
  else "line"

/-- A chart spec minus its generated id (`_normalize_visual`'s output up to
the `uuid4` call).  `aggregate`/`top_n` are `none` when the source dict has
no such key. -/
structure PreSpec where
  type : String
  title : String
  x : PyVal
  y : PyVal
  aggregate : Option String
  top_n : Option ℕ
  deriving DecidableEq

structure ChartSpec where
  id : String
  type : String
  title : String
  x : PyVal
  y : PyVal
  aggregate : Option String
  top_n : Option ℕ
  deriving DecidableEq

def PreSpec.withId (p : PreSpec) (i : String) : ChartSpec :=
  ⟨i, p.type, p.title, p.x, p.y, p.aggregate, p.top_n⟩

def ChartSpec.pre (c : ChartSpec) : PreSpec :=
  ⟨c.type, c.title, c.x, c.y, c.aggregate, c.top_n⟩

/-- The `x`-axis check `isinstance(x, str) and x not in df.columns`, as the
test of whether the entry survives it: a string must name an existing
column, anything else passes. -/
def xOkB (df : DataFrame) : PyVal → Bool
  | .atom (.pystr s) => decide (s ∈ colNames df)
  | _ => true

/-- `DashboardAgent._normalize_visual`, up to the generated id: a string `x`
or `y` naming a column absent from the schema drops the entry; a list `y`
keeps only existing columns and drops the entry when none remain; any other
(including null or numeric) `x`/`y` passes through unvalidated. -/
def normVisualCore (df : DataFrame) : VisualEntry → Option PreSpec
  | .notDict => none
  | .dict t ti x y =>
    let cols := colNames df
    let vt := typeClamp t
    let titleStr := pyStr (if pyTruthy ti then ti else PyVal.atom (.pystr "Chart"))
    if xOkB df x then
      match y with
      | .atom (.pystr s) =>
        if s ∈ cols then some ⟨vt, titleStr, x, y, none, none⟩ else none
      | .plist ys =>
        let ys2 := ys.filter (fun c => match c with
          | .pystr s => decide (s ∈ cols)
          | _ => false)
        if ys2 = [] then none else some ⟨vt, titleStr, x, .plist ys2, none, none⟩
      | _ => some ⟨vt, titleStr, x, y, none, none⟩
    else none

/-- `f"chart_{uuid.uuid4().hex[:8]}"`; the uuid stream is a parameter `u`
indexed by how many draws happened before. -/
def chartId (s : String) : String := "chart_" ++ String.mk (s.data.take 8)

/-- The `for v in visuals` loop of `_build_chart_specs`: normalize each dict
entry, keep the survivors, drawing one uuid per kept spec. -/
def buildFromVisuals (df : DataFrame) (u : ℕ → String) :
    ℕ → List VisualEntry → List ChartSpec × ℕ
  | k, [] => ([], k)
  | k, v :: vs =>
    match normVisualCore df v with
    | none => buildFromVisuals df u k vs
    | some p =>
      let rest := buildFromVisuals df u (k + 1) vs
      (p.withId (chartId (u k)) :: rest.1, rest.2)

def strv (s : String) : PyVal := .atom (.pystr s)

/-- `DashboardAgent._auto_charts`: the fixed detection order, each chart
drawing one uuid. -/
def autoCharts (df : DataFrame) (u : ℕ → String) (k : ℕ) :
    List ChartSpec × ℕ :=
  let s1 : List ChartSpec × ℕ :=
    match dateCols df, numericCols df with
    | d :: _, n :: _ =>
      ([⟨chartId (u k), "line", "Trend: " ++ n ++ " over time",
         strv d, strv n, none, none⟩], k + 1)
    | _, _ => ([], k)
  let s2 : List ChartSpec × ℕ :=
    match catCols df, numericCols df with
    | c :: _, n :: _ =>
      (s1.1 ++ [⟨chartId (u s1.2), "bar", "Top categories: " ++ n ++ " by " ++ c,
        strv c, strv n, some "sum", some 20⟩], s1.2 + 1)
    | _, _ => s1
  let s3 : List ChartSpec × ℕ :=
    match numericCols df with
    | a :: b :: _ =>
      (s2.1 ++ [⟨chartId (u s2.2), "scatter", "Scatter: " ++ a ++ " vs " ++ b,
        strv a, strv b, none, none⟩], s2.2 + 1)
    | _ => s2
  let s4 : List ChartSpec × ℕ :=
    match numericCols df with
    | a :: _ =>
      (s3.1 ++ [⟨chartId (u s3.2), "hist", "Distribution: " ++ a,
        strv a, .atom .pynull, none, none⟩], s3.2 + 1)
    | _ => s3
  if s4.1 = [] then
    match df.cols with
    | c0 :: c1 :: _ =>
      ([⟨chartId (u s4.2), "line", "Auto Chart",
        strv c0.1, strv c1.1, none, none⟩], s4.2 + 1)
    | _ => ([], s4.2)
  else s4

/-- `DashboardAgent._build_chart_specs`: honor a non-empty `plan["visuals"]`
list when normalization keeps at least one spec, otherwise auto-detect. -/
def buildChartSpecs (df : DataFrame) (plan : Plan) (u : ℕ → String) (k : ℕ) :
    List ChartSpec × ℕ :=
  match plan.visuals with
  | some vs =>
    if vs = [] then autoCharts df u k
    else
      if (buildFromVisuals df u k vs).1 = [] then
        autoCharts df u (buildFromVisuals df u k vs).2
      else buildFromVisuals df u k vs
  | none => autoCharts df u k

/-! ### DashboardAgent HTML rendering (src/agents/dashboard_agent.py 169-437)

The interpolation structure (escaping, caps, serialized data) is embedded;
the literal CSS/JS template text is abbreviated into opaque constant
fragments, since no claim depends on the template bytes.  `json.dumps` is
idealized over the modelled cell values (its float/datetime rendering is
presentation only). -/

/-- `DashboardAgent._esc`: HTML-escape the five special characters. -/
def esc (s : String) : String :=
  ((((s.replace "&" "&amp;").replace "<" "&lt;").replace ">" "&gt;").replace
    "\"" "&quot;").replace "\x27" "&#39;"

/-- One dataframe cell, as carried into the preview records. -/
inductive Cell
  | num (q : Option ℚ)
  | strc (s : Option String)
  | dt (d : Option DT)
  | other
  deriving DecidableEq

def cellAt (cd : ColData) (i : ℕ) : Cell :=
  match cd with
  | .numeric v => .num ((v.get? i).getD none)
  | .strings v => .strc ((v.get? i).getD none)
  | .datetime v => .dt ((v.get? i).getD none)
  | .other _ => .other

/-- `df.head(n).to_dict(orient="records")`. -/
def previewRows (df : DataFrame) (n : ℕ) : List (List (String × Cell)) :=
  (List.range n).map (fun i => df.cols.map (fun c => (c.1, cellAt c.2 i)))

/-- `str(...)` of one cell for the preview table. -/
def cellStr : Cell → String
  | .num (some q) => toString q
  | .num none => "nan"
  | .strc (some s) => s
  | .strc none => "None"
  | .dt (some d) => toString d.day ++ "T" ++ toString d.tick
  | .dt none => "NaT"
  | .other => ""

def jsonStr (s : String) : String :=
  "\"" ++ (s.replace "\\" "\\\\").replace "\"" "\\\"" ++ "\""

def jsonCell : Cell → String
  | .num (some q) => toString q
  | .num none => "NaN"
  | .strc (some s) => jsonStr s
  | .strc none => "null"
  | .dt (some d) => jsonStr (toString d.day ++ "T" ++ toString d.tick)
  | .dt none => "null"
  | .other => "null"

def jsonPyAtom : PyAtom → String
  | .pynull => "null"
  | .pystr s => jsonStr s
  | .pyint n => toString n
  | .pyrat q => toString q

def jsonPyVal : PyVal → String
  | .atom a => jsonPyAtom a
  | .plist xs => "[" ++ String.intercalate ", " (xs.map jsonPyAtom) ++ "]"

def jsonRecord (r : List (String × Cell)) : String :=
  "\x7b" ++ String.intercalate ", "
    (r.map (fun p => jsonStr p.1 ++ ": " ++ jsonCell p.2)) ++ "\x7d"

def jsonRecords (rs : List (List (String × Cell))) : String :=
  "[" ++ String.intercalate ", " (rs.map jsonRecord) ++ "]"

def jsonStrings (l : List String) : String :=
  "[" ++ String.intercalate ", " (l.map jsonStr) ++ "]"

/-- `json.dumps` of one chart spec; `aggregate`/`top_n` keys appear only
when the source dict carries them. -/
def jsonChart (c : ChartSpec) : String :=
  "\x7b\"id\": " ++ jsonStr c.id ++ ", \"type\": " ++ jsonStr c.type ++
    ", \"title\": " ++ jsonStr c.title ++ ", \"x\": " ++ jsonPyVal c.x ++
    ", \"y\": " ++ jsonPyVal c.y ++
    (match c.aggregate with
     | some a => ", \"aggregate\": " ++ jsonStr a
     | none => "") ++
    (match c.top_n with
     | some n => ", \"top_n\": " ++ toString n
     | none => "") ++ "\x7d"

def jsonCharts (cs : List ChartSpec) : String :=
  "[" ++ String.intercalate ", " (cs.map jsonChart) ++ "]"

def chartDiv (c : ChartSpec) : String :=
  "<div class=\"chart-card\"><div class=\"chart-title\">" ++ esc c.title ++
    "</div><div id=\"" ++ c.id ++ "\" class=\"chart\"></div></div>"

def kpiDiv (k : KPI) : String :=
  "<div class=\"kpi\"><div class=\"kpi-title\">" ++ esc k.title ++
    "</div><div class=\"kpi-value\">" ++ esc k.value ++
    "</div><div class=\"kpi-context\">" ++ esc k.context ++ "</div></div>"

/-- `DashboardAgent._render_warnings`: at most six escaped badges. -/
def renderWarnings (ws : List String) : String :=
  if ws = [] then ""
  else String.intercalate " "
    ((ws.take 6).map (fun w => "<span class=\"badge\">" ++ esc w ++ "</span>"))

/-- `DashboardAgent._render_table`. -/
def renderTable (cols : List String) (rows : List (List (String × Cell))) :
    String :=
  let head := String.join (cols.map (fun c => "<th>" ++ esc c ++ "</th>"))
  let body := String.intercalate "\n" (rows.map (fun r =>
    "<tr>" ++ String.join (cols.map (fun c =>
      "<td>" ++ esc (((r.find? (fun p => p.1 == c)).map
        (fun p => cellStr p.2)).getD "") ++ "</td>")) ++ "</tr>"))
  "<table><thead><tr>" ++ head ++ "</tr></thead><tbody>" ++ body ++
    "</tbody></table>"

/-- Static template text before the summary (doctype, head, CSS),
abbreviated. -/
def htmlFrag0 : String := "<!DOCTYPE html><html><head>...</head><body><div class=\"header\"><div class=\"h1\">Agentic Analytics Dashboard</div><div class=\"sub\">"

def htmlFrag1 : String := "</div><div>"

def htmlFrag2 : String := "</div></div><div class=\"kpi-grid\">"

def htmlFrag3 : String := "</div><div class=\"grid\">"

def htmlFrag4 : String := "</div><div class=\"table-wrap\"><div>Data Preview (first "

def htmlFrag5 : String := " rows)</div>"

def htmlFrag6 : String := "</div><script>const DATA = "

def htmlFrag7 : String := ";\nconst FULL_COLUMNS = "

def htmlFrag8 : String := ";\nconst CHARTS = "

/-- Static client-side rendering script (histogram binning, bar aggregation,
scatter/line traces), abbreviated. -/
def htmlFrag9 : String := ";\n...renderer...</script></body></html>"

/-- `DashboardAgent._render_html` (the `dashboard_id` argument is accepted
but, as in the source template, never interpolated). -/
def renderHtml (dashboardId : String) (kpis : List KPI)
    (charts : List ChartSpec) (columns : List String)
    (preview : List (List (String × Cell))) (summary : String)
    (warnings : List String) : String :=
  let _ := dashboardId
  htmlFrag0 ++ esc summary ++ htmlFrag1 ++ renderWarnings warnings ++
    htmlFrag2 ++ String.intercalate "\n" ((kpis.take 12).map kpiDiv) ++
    htmlFrag3 ++ String.intercalate "\n" (charts.map chartDiv) ++
    htmlFrag4 ++ toString preview.length ++ htmlFrag5 ++
    renderTable columns preview ++
    htmlFrag6 ++ jsonRecords preview ++ htmlFrag7 ++ jsonStrings columns ++
    htmlFrag8 ++ jsonCharts charts ++ htmlFrag9

/-- `DashboardAgent._empty_dashboard` (static text abbreviated). -/
def emptyDashboardHtml (message : String) : String :=
  "<html><body><h3>Dashboard unavailable</h3><p>" ++ esc message ++
    "</p></body></html>"

/-! ### DashboardAgent.build_dashboard (src/agents/dashboard_agent.py 23-58) -/

/-- One entry of `meta["charts"]`: the id-free summary of a chart spec. -/
structure ChartMeta where
  title : String
  type : String
  x : PyVal
  y : PyVal
  deriving DecidableEq

/-- `meta`: the empty-dataset shape or the full shape. -/
inductive DashMeta
  | emptyMeta (status reason : String)
  | full (dashboard_type : String) (charts : List ChartMeta) (kpis : List KPI)
      (rows : ℕ) (cols : ℕ)
  deriving DecidableEq

/-- Output of `build_dashboard`: the returned dict (`html`, `meta`) together
with the chart-spec list the call synthesized (embedded in the html's
`CHARTS` data and summarized in `meta["charts"]`). -/
structure DashOut where
  charts : List ChartSpec
  html : String
  meta : DashMeta
  deriving DecidableEq

/-- `DashboardAgent.build_dashboard`.  `u` supplies the `uuid4` hex draws of
this invocation: draw 0 is `dashboard_id`, the chart specs consume draws
from index 1. -/
def buildDashboard (u : ℕ → String) (df : DataFrame) (plan : Plan)
    (ins : Report) : DashOut :=
  if nrows df = 0 then
    { charts := []
      html := emptyDashboardHtml "No data returned from query."
      meta := .emptyMeta "empty" "no rows" }
  else
    let dashId := "dash_" ++ String.mk ((u 0).data.take 8)
    let charts := (buildChartSpecs df plan u 1).1
    let kpis := ins.kpis
    let previewN := min 200 (nrows df)
    let preview := previewRows df previewN
    let columns := colNames df
    { charts := charts
      html := renderHtml dashId kpis charts columns preview ins.summary
        ins.warnings
      meta := .full "plotly_html"
        (charts.map (fun c => ⟨c.title, c.type, c.x, c.y⟩))
        (kpis.take 12) (nrows df) (ncols df) }

/-! ## Claim theorems -/

/-- Helper: an insertion sort by key of a list with pairwise-distinct keys is
sorted strictly by key. -/
theorem sortParams_strictSorted (l : List (String × PyAtom))
    (hl : (l.map Prod.fst).Nodup) :
    (List.insertionSort keyLe l).Sorted (fun a b => a.1 < b.1) := by
  have hs : (List.insertionSort keyLe l).Sorted keyLe :=
    List.sorted_insertionSort keyLe l
  have hnd2 : ((List.insertionSort keyLe l).map Prod.fst).Nodup :=
    ((List.perm_insertionSort keyLe l).map Prod.fst).nodup_iff.mpr hl
  have hne : (List.insertionSort keyLe l).Pairwise (fun a b => a.1 ≠ b.1) :=
    List.pairwise_map.mp hnd2
  exact hs.imp₂ (fun a b h1 h2 => lt_of_le_of_ne h1 h2) hne

/-- C1: for every sql string and params mapping, `Executor._cache_key` is
invariant under permutation of the mapping's insertion order — two calls
with identical sql and identical (key, value) content produce the same
digest output, for any digest function. -/
theorem c1_cache_key_param_order_invariant (digest : String → String)
    (sql : String) (p1 p2 : List (String × PyAtom))
    (hperm : p1.Perm p2) (hnd : (p1.map Prod.fst).Nodup) :
    cache_key digest sql p1 = cache_key digest sql p2 := by
  suffices h : sortParams p1 = sortParams p2 by
    unfold cache_key cacheKeyPayload
    rw [h]
  have hnd2 : (p2.map Prod.fst).Nodup := (hperm.map Prod.fst).nodup_iff.mp hnd
  have hperm12 : List.Perm (List.insertionSort keyLe p1) (List.insertionSort keyLe p2) :=
    (List.perm_insertionSort keyLe p1).trans
      (hperm.trans (List.perm_insertionSort keyLe p2).symm)
  haveI : IsAntisymm (String × PyAtom) (fun a b => a.1 < b.1) :=
    ⟨fun _ _ h1 h2 => absurd h2 (lt_asymm h1)⟩
  exact List.eq_of_perm_of_sorted hperm12
    (sortParams_strictSorted p1 hnd) (sortParams_strictSorted p2 hnd2)

/-- Witness for C1 at a concrete pair of reordered params mappings. -/
theorem c1_witness :
    cache_key (fun s => s) "SELECT 1"
        [("b", PyAtom.pyint 1), ("a", PyAtom.pystr "x")] =
      cache_key (fun s => s) "SELECT 1"
        [("a", PyAtom.pystr "x"), ("b", PyAtom.pyint 1)] :=
  c1_cache_key_param_order_invariant (fun s => s) "SELECT 1" _ _
    (List.Perm.swap ("a", PyAtom.pystr "x") ("b", PyAtom.pyint 1) [])
    (by decide)

/-- C2: on a cache miss with `OFFLINE_ONLY` set, `Executor.run` raises the
configuration error, emits no effect at all (in particular no call to the
query-execution collaborator and no cache write), and leaves the cache
filesystem unchanged. -/
theorem c2_offline_miss_fails_without_db_access (st : ExecSettings)
    (db : String → List (String × PyAtom) → ℤ → ℤ → DataFrame)
    (digest : String → String) (fs : FS) (sql : String)
    (params : List (String × PyAtom))
    (hoff : st.OFFLINE_ONLY = true)
    (hmiss : SnapshotCache.get fs st.CACHE_DIR (cache_key digest sql params)
      = none) :
    (∃ msg, (Executor.run st db digest fs sql params).result =
        Except.error msg) ∧
      (Executor.run st db digest fs sql params).events = [] ∧
      (Executor.run st db digest fs sql params).fs = fs := by
  unfold Executor.run
  simp only [hmiss, hoff]
  exact ⟨⟨_, rfl⟩, rfl, rfl⟩

/-- Witness for C2: empty cache directory, offline flag set. -/
theorem c2_witness :
    (∃ msg, (Executor.run ⟨true, 30, 50000, "cache"⟩
        (fun _ _ _ _ => ⟨[]⟩) (fun s => s) ⟨fun _ => FileState.absent⟩
        "SELECT 1" []).result = Except.error msg) ∧
      (Executor.run ⟨true, 30, 50000, "cache"⟩
        (fun _ _ _ _ => ⟨[]⟩) (fun s => s) ⟨fun _ => FileState.absent⟩
        "SELECT 1" []).events = [] ∧
      (Executor.run ⟨true, 30, 50000, "cache"⟩
        (fun _ _ _ _ => ⟨[]⟩) (fun s => s) ⟨fun _ => FileState.absent⟩
        "SELECT 1" []).fs = ⟨fun _ => FileState.absent⟩ :=
  c2_offline_miss_fails_without_db_access _ _ _ _ _ _ rfl rfl

/-- C3: on a zero-row dataset `InsightAgent.generate` returns exactly the
canonical empty report, for every plan (and every correlation kernel). -/
theorem c3_empty_dataset_canonical_report
    (pcorr : List (Option ℚ) → List (Option ℚ) → Option ℚ)
    (df : DataFrame) (plan : Plan) (h : nrows df = 0) :
    generate pcorr df plan =
      { kpis := [⟨"No Data", "0 rows", "Query returned no records"⟩]
        summary := "No data returned for the query. Adjust filters or table selection."
        distributions := []
        trends := []
        correlations := []
        warnings := ["empty_result"] } := by
  unfold generate
  rw [if_pos h]
  rfl

/-- Witness for C3 at a concrete empty dataset. -/
theorem c3_witness :
    generate (fun _ _ => none) ⟨[("a", ColData.numeric [])]⟩ ⟨some [], some []⟩ =
      { kpis := [⟨"No Data", "0 rows", "Query returned no records"⟩]
        summary := "No data returned for the query. Adjust filters or table selection."
        distributions := []
        trends := []
        correlations := []
        warnings := ["empty_result"] } :=
  c3_empty_dataset_canonical_report (fun _ _ => none) _ _ rfl

/-- C4: `SnapshotCache.get` on a present-but-corrupt snapshot file returns
`none` (a cache miss); the read failure is caught and never surfaced. -/
theorem c4_corrupt_snapshot_reads_as_miss (fs : FS) (dir key : String)
    (h : fs.files (path_for_key dir key) = FileState.corrupt) :
    SnapshotCache.get fs dir key = none := by
  unfold SnapshotCache.get
  rw [h]
  rfl

/-- Witness for C4 on a concrete all-corrupt cache directory. -/
theorem c4_witness :
    SnapshotCache.get ⟨fun _ => FileState.corrupt⟩ "cache" "deadbeef" = none :=
  c4_corrupt_snapshot_reads_as_miss ⟨fun _ => FileState.corrupt⟩ "cache"
    "deadbeef" rfl

/-- Helper: `_kpis_from_plan` always returns at least the leading Rows card,
so it is never empty. -/
theorem kpisFromPlan_ne_nil (df : DataFrame) (plan : Plan) :
    kpisFromPlan df plan ≠ [] := by
  unfold kpisFromPlan
  cases plan.metrics <;> simp

/-- Helper: the KPI list of `generate` on a non-empty dataset is exactly
`_kpis_from_plan`'s output (the `if not kpis:` fallback never fires). -/
theorem generate_kpis (pcorr : List (Option ℚ) → List (Option ℚ) → Option ℚ)
    (df : DataFrame) (plan : Plan) (h0 : ¬nrows df = 0) :
    (generate pcorr df plan).kpis = kpisFromPlan df plan := by
  unfold generate
  rw [if_neg h0]
  show (if kpisFromPlan df plan = [] then fallbackKpis df
    else kpisFromPlan df plan) = kpisFromPlan df plan
  rw [if_neg (kpisFromPlan_ne_nil df plan)]

/-- C7 (evidence for the code defect): a non-empty two-row dataset with one
numeric column and a plan with no metrics.  The claimed fallback (Columns
card, Sum and Avg over the first numeric column) never appears: the KPI
list is the Rows card alone, because `_kpis_from_plan` always returns the
Rows card and the fallback guard `if not kpis:` is therefore unreachable. -/
theorem c7_fallback_dead_code_rows_only :
    (generate (fun _ _ => none) ⟨[("a", ColData.numeric [some 1, some 2])]⟩
        ⟨some [], some []⟩).kpis = [⟨"Rows", "2", "Returned rows"⟩] := by
  decide

/-- C8 counterexample: one-row dataset whose numeric column `m` is named by a
plan metric.  The emitted KPI's context is `"From query"`, not the claimed
`"From query result"` (no KPI of that run carries the claimed context). -/
theorem c8_counterexample_context_string :
    ((generate (fun _ _ => none) ⟨[("m", ColData.numeric [some 5])]⟩
        ⟨some [MetricEntry.dict (strv "m") none (PyVal.atom .pynull)],
         some []⟩).kpis.map (fun k => (k.title, k.context))) =
      [("Rows", "Returned rows"), ("m", "From query")] ∧
    "From query" ≠ "From query result" := by
  constructor
  · decide
  · decide

/-- Helper: the KPI emitted for a plan metric whose name is an existing
numeric column with at least one non-null value. -/
theorem metricKpi_name_numeric (df : DataFrame) (n : String)
    (aggv : Option String) (fieldv : PyVal) (vals : List (Option ℚ))
    (hname : ¬pyStrip n = "")
    (hcol : colFind df n = some (ColData.numeric vals))
    (x : ℚ) (xs : List ℚ) (hnn : vals.filterMap id = x :: xs) :
    metricKpi df (MetricEntry.dict (PyVal.atom (.pystr n)) aggv fieldv) =
      [⟨n, fmt ((vals.filterMap id).sum), "From query"⟩] := by
  simp only [metricKpi, hcol, hnn]
  rw [if_neg hname]
  cases xs with
  | nil => simp
  | cons y ys => simp

/-- C8 (amended): for every non-empty dataset and plan metric whose name is
an existing numeric column with at least one non-null value, the emitted
KPI's value is the column's sum over non-null values (which is the single
value when exactly one is present) and its context is `"From query"`. -/
theorem c8_amended_metric_column_kpi
    (pcorr : List (Option ℚ) → List (Option ℚ) → Option ℚ)
    (df : DataFrame) (plan : Plan) (ms : List MetricEntry) (n : String)
    (aggv : Option String) (fieldv : PyVal) (vals : List (Option ℚ))
    (h0 : ¬nrows df = 0) (hm : plan.metrics = some ms)
    (hmem : MetricEntry.dict (PyVal.atom (.pystr n)) aggv fieldv ∈ ms)
    (hname : ¬pyStrip n = "")
    (hcol : colFind df n = some (ColData.numeric vals))
    (hnn : vals.filterMap id ≠ []) :
    (⟨n, fmt ((vals.filterMap id).sum), "From query"⟩ : KPI) ∈
      (generate pcorr df plan).kpis := by
  rw [generate_kpis pcorr df plan h0]
  unfold kpisFromPlan
  rw [hm]
  apply List.mem_cons_of_mem
  apply List.mem_flatMap.mpr
  refine ⟨_, hmem, ?_⟩
  cases hv : vals.filterMap id with
  | nil => exact absurd hv hnn
  | cons x xs =>
    rw [metricKpi_name_numeric df n aggv fieldv vals hname hcol x xs hv]
    rw [hv]
    exact List.mem_singleton.mpr rfl

/-- Witness for the amended C8 at a concrete dataset and plan. -/
theorem c8_amended_witness :
    (⟨"m", fmt (([some (5 : ℚ)].filterMap id).sum), "From query"⟩ : KPI) ∈
      (generate (fun _ _ => none) ⟨[("m", ColData.numeric [some 5])]⟩
        ⟨some [MetricEntry.dict (strv "m") none (PyVal.atom .pynull)],
         some []⟩).kpis :=
  c8_amended_metric_column_kpi (fun _ _ => none) _ _ _ "m" none
    (PyVal.atom .pynull) [some 5] (by decide) rfl (by decide) (by decide)
    rfl (by decide)

/-! ### C6 helpers: first-seen dedup and sorted-day properties -/

theorem fsdAux_mem [DecidableEq α] (l : List α) :
    ∀ (seen : List α) (a : α), a ∈ fsdAux seen l ↔ a ∈ l ∧ a ∉ seen := by
  induction l with
  | nil => intro seen a; simp [fsdAux]
  | cons x xs ih =>
    intro seen a
    by_cases hx : x ∈ seen
    · rw [show fsdAux seen (x :: xs) = fsdAux seen xs by
        simp [fsdAux, if_pos hx], ih]
      constructor
      · rintro ⟨ha, hs⟩
        exact ⟨List.mem_cons_of_mem x ha, hs⟩
      · rintro ⟨ha, hs⟩
        rcases List.mem_cons.mp ha with rfl | ha2
        · exact absurd hx hs
        · exact ⟨ha2, hs⟩
    · rw [show fsdAux seen (x :: xs) = x :: fsdAux (x :: seen) xs by
        simp [fsdAux, if_neg hx]]
      constructor
      · intro h
        rcases List.mem_cons.mp h with rfl | h2
        · exact ⟨List.mem_cons_self a xs, hx⟩
        · obtain ⟨ha, hs⟩ := (ih (x :: seen) a).mp h2
          exact ⟨List.mem_cons_of_mem x ha,
            fun hc => hs (List.mem_cons_of_mem x hc)⟩
      · rintro ⟨ha, hs⟩
        rcases List.mem_cons.mp ha with rfl | ha2
        · exact List.mem_cons_self a _
        · by_cases hax : a = x
          · subst hax
            exact List.mem_cons_self a _
          · refine List.mem_cons_of_mem x ((ih (x :: seen) a).mpr ⟨ha2, ?_⟩)
            intro hc
            rcases List.mem_cons.mp hc with h | h
            · exact hax h
            · exact hs h

theorem fsdAux_nodup [DecidableEq α] (l : List α) :
    ∀ seen : List α, (fsdAux seen l).Nodup := by
  induction l with
  | nil => intro seen; simp [fsdAux]
  | cons x xs ih =>
    intro seen
    by_cases hx : x ∈ seen
    · simpa [fsdAux, if_pos hx] using ih seen
    · rw [show fsdAux seen (x :: xs) = x :: fsdAux (x :: seen) xs by
        simp [fsdAux, if_neg hx], List.nodup_cons]
      refine ⟨fun hc => ?_, ih (x :: seen)⟩
      exact ((fsdAux_mem xs (x :: seen) x).mp hc).2 (List.mem_cons_self x seen)

theorem firstSeenDedup_mem [DecidableEq α] (l : List α) (a : α) :
    a ∈ firstSeenDedup l ↔ a ∈ l := by
  simp [firstSeenDedup, fsdAux_mem]

theorem firstSeenDedup_nodup [DecidableEq α] (l : List α) :
    (firstSeenDedup l).Nodup := fsdAux_nodup l []

/-- The distinct-date list of the trend step is strictly ascending. -/
theorem trendDays_strictSorted (kept : List (ℤ × Option ℚ)) :
    (trendDays kept).Pairwise (fun a b : ℤ => a < b) := by
  have hs : (trendDays kept).Sorted intLe :=
    List.sorted_insertionSort intLe (firstSeenDedup (kept.map Prod.fst))
  have hnd : (trendDays kept).Nodup :=
    (List.perm_insertionSort intLe _).nodup_iff.mpr
      (firstSeenDedup_nodup (kept.map Prod.fst))
  exact hs.imp₂ (fun a b h1 h2 => lt_of_le_of_ne h1 h2) hnd

theorem trendDays_mem (kept : List (ℤ × Option ℚ)) (d : ℤ) :
    d ∈ trendDays kept ↔ d ∈ kept.map Prod.fst := by
  unfold trendDays
  rw [List.mem_insertionSort]
  exact firstSeenDedup_mem _ d

/-- Helper: the trends of `generate` on a non-empty dataset. -/
theorem generate_trends (pcorr : List (Option ℚ) → List (Option ℚ) → Option ℚ)
    (df : DataFrame) (plan : Plan) (h0 : ¬nrows df = 0) :
    (generate pcorr df plan).trends = trendsOf df := by
  unfold generate
  rw [if_neg h0]

/-- The trend computation as the C6 claim words it: rows whose temporal
coercion fails OR whose numeric value is missing are dropped before
grouping by calendar date.  This definition follows the claim's words, not
the source, and exists only to be compared against the embedded source. -/
def trendsOfClaimC6 (df : DataFrame) : List Trend :=
  match dateColsData df, numColsData df with
  | (tcol, tvals) :: _, (ncol, nvals) :: _ =>
    let kept := (tvals.zip nvals).filterMap (fun p =>
      match p.1, p.2 with
      | some t, some v => some (t.day, v)
      | _, _ => none)
    let days := List.insertionSort intLe (firstSeenDedup (kept.map Prod.fst))
    let g := days.map (fun d =>
      (d, ((kept.filter (fun r => r.1 = d)).map Prod.snd).sum))
    if 3 ≤ g.length then
      [⟨tcol, ncol, ((g.drop (g.length - 60)).map (fun p => ⟨p.1, p.2⟩)),
        "Summed by date"⟩]
    else []
  | _, _ => []

/-- C6 counterexample: three rows on three distinct dates, the third row's
numeric value missing.  The source keeps that row (only failed temporal
coercion is dropped), finds 3 distinct dates and emits a trend whose third
point is the missing-valued date; under the claim's rule that row is
dropped, only 2 distinct dates remain and no trend is emitted. -/
theorem c6_counterexample_missing_numeric_rows :
    ((generate (fun _ _ => none)
        ⟨[("d", ColData.datetime [some ⟨0, 0⟩, some ⟨1, 0⟩, some ⟨2, 0⟩]),
          ("a", ColData.numeric [some 1, some 2, none])]⟩
        ⟨some [], some []⟩).trends.map
      (fun t => (t.time_field, t.metric, t.points.map TrendPoint.date))) =
      [("d", "a", [0, 1, 2])] ∧
    trendsOfClaimC6
      ⟨[("d", ColData.datetime [some ⟨0, 0⟩, some ⟨1, 0⟩, some ⟨2, 0⟩]),
        ("a", ColData.numeric [some 1, some 2, none])]⟩ = [] := by
  constructor
  · decide
  · decide

/-- Helper: the shape of `trendsOf` once the leftmost temporal and numeric
columns are known. -/
theorem trendsOf_eq (df : DataFrame) (tcol ncol : String)
    (tvals : List (Option DT)) (nvals : List (Option ℚ))
    (dRest : List (String × List (Option DT)))
    (nRest : List (String × List (Option ℚ)))
    (hd : dateColsData df = (tcol, tvals) :: dRest)
    (hn : numColsData df = (ncol, nvals) :: nRest) :
    trendsOf df =
      if trendKept tvals nvals = [] then []
      else
        if 3 ≤ (trendGroups (trendKept tvals nvals)).length then
          [⟨tcol, ncol,
            (((trendGroups (trendKept tvals nvals)).drop
              ((trendGroups (trendKept tvals nvals)).length - 60)).map
              (fun p => ⟨p.1, p.2⟩)), "Summed by date"⟩]
        else [] := by
  unfold trendsOf
  rw [hd, hn]

/-- C6 (amended): on a non-empty dataset with a leftmost temporal column
`tcol` and leftmost numeric column `ncol`, rows with failed temporal
coercion are dropped (rows with missing numeric values are kept; each
date's sum ignores the missing values); a single trend is emitted exactly
when at least 3 distinct dates remain, carrying at most the last 60 dates
in strictly ascending order, each point's value being the per-date sum. -/
theorem c6_amended_trend_derivation
    (pcorr : List (Option ℚ) → List (Option ℚ) → Option ℚ)
    (df : DataFrame) (plan : Plan) (tcol ncol : String)
    (tvals : List (Option DT)) (nvals : List (Option ℚ))
    (dRest : List (String × List (Option DT)))
    (nRest : List (String × List (Option ℚ)))
    (h0 : ¬nrows df = 0)
    (hd : dateColsData df = (tcol, tvals) :: dRest)
    (hn : numColsData df = (ncol, nvals) :: nRest) :
    ((trendDays (trendKept tvals nvals)).length < 3 →
      (generate pcorr df plan).trends = []) ∧
    (3 ≤ (trendDays (trendKept tvals nvals)).length →
      ∃ t, (generate pcorr df plan).trends = [t] ∧
        t.time_field = tcol ∧ t.metric = ncol ∧ t.note = "Summed by date" ∧
        t.points.map TrendPoint.date =
          (trendDays (trendKept tvals nvals)).drop
            ((trendDays (trendKept tvals nvals)).length - 60) ∧
        t.points.length = min 60 (trendDays (trendKept tvals nvals)).length ∧
        (t.points.map TrendPoint.date).Pairwise (fun a b : ℤ => a < b) ∧
        ∀ p ∈ t.points,
          p.value = (((trendKept tvals nvals).filter
              (fun r => r.1 = p.date)).filterMap Prod.snd).sum ∧
            p.date ∈ (trendKept tvals nvals).map Prod.fst) := by
  have hg : (generate pcorr df plan).trends = trendsOf df :=
    generate_trends pcorr df plan h0
  rw [hg, trendsOf_eq df tcol ncol tvals nvals dRest nRest hd hn]
  set kept := trendKept tvals nvals with hkept
  have hlen : (trendGroups kept).length = (trendDays kept).length :=
    List.length_map _ _
  by_cases hk : kept = []
  · have hdays : trendDays kept = [] := by
      rw [hk]; rfl
    rw [if_pos hk]
    refine ⟨fun _ => rfl, fun h3 => ?_⟩
    rw [hdays] at h3
    simp at h3
  · rw [if_neg hk]
    by_cases h3 : 3 ≤ (trendGroups kept).length
    · rw [if_pos h3]
      refine ⟨fun hlt => ?_, fun _ => ?_⟩
      · omega
      · refine ⟨_, rfl, rfl, rfl, rfl, ?_, ?_, ?_, ?_⟩
        · rw [hlen, List.map_map]
          unfold trendGroups
          rw [← List.map_drop, List.map_map]
          exact List.map_id'' (fun _ => rfl) _
        · rw [hlen, List.length_map, List.length_drop, hlen]
          omega
        · rw [hlen, List.map_map]
          unfold trendGroups
          rw [← List.map_drop, List.map_map]
          exact List.pairwise_map.mpr
            (List.Pairwise.sublist (List.drop_sublist _ _)
              (trendDays_strictSorted kept))
        · intro p hp
          rw [hlen] at hp
          unfold trendGroups at hp
          rw [← List.map_drop] at hp
          simp only [List.map_map, List.mem_map, Function.comp] at hp
          obtain ⟨d, hd2, rfl⟩ := hp
          refine ⟨rfl, ?_⟩
          have hdm : d ∈ trendDays kept :=
            (List.drop_sublist _ _).mem hd2
          exact (trendDays_mem kept d).mp hdm
    · rw [if_neg h3]
      refine ⟨fun _ => rfl, fun hge => ?_⟩
      omega

/-- Witness for the amended C6 on a three-date dataset. -/
theorem c6_amended_witness :
    ∃ t, (generate (fun _ _ => none)
        ⟨[("d", ColData.datetime [some ⟨0, 0⟩, some ⟨1, 0⟩, some ⟨2, 0⟩]),
          ("a", ColData.numeric [some 1, some 2, none])]⟩
        ⟨some [], some []⟩).trends = [t] ∧
      t.time_field = "d" ∧ t.metric = "a" ∧ t.note = "Summed by date" ∧
      t.points.map TrendPoint.date =
        (trendDays (trendKept [some ⟨0, 0⟩, some ⟨1, 0⟩, some ⟨2, 0⟩]
          [some 1, some 2, none])).drop
          ((trendDays (trendKept [some ⟨0, 0⟩, some ⟨1, 0⟩, some ⟨2, 0⟩]
            [some 1, some 2, none])).length - 60) ∧
      t.points.length = min 60 (trendDays (trendKept
        [some ⟨0, 0⟩, some ⟨1, 0⟩, some ⟨2, 0⟩] [some 1, some 2, none])).length ∧
      (t.points.map TrendPoint.date).Pairwise (fun a b : ℤ => a < b) ∧
      ∀ p ∈ t.points,
        p.value = (((trendKept [some ⟨0, 0⟩, some ⟨1, 0⟩, some ⟨2, 0⟩]
            [some 1, some 2, none]).filter
            (fun r => r.1 = p.date)).filterMap Prod.snd).sum ∧
          p.date ∈ (trendKept [some ⟨0, 0⟩, some ⟨1, 0⟩, some ⟨2, 0⟩]
            [some 1, some 2, none]).map Prod.fst :=
  (c6_amended_trend_derivation (fun _ _ => none)
      ⟨[("d", ColData.datetime [some ⟨0, 0⟩, some ⟨1, 0⟩, some ⟨2, 0⟩]),
        ("a", ColData.numeric [some 1, some 2, none])]⟩
      ⟨some [], some []⟩ "d" "a"
      [some ⟨0, 0⟩, some ⟨1, 0⟩, some ⟨2, 0⟩] [some 1, some 2, none] [] []
      (by decide) rfl rfl).2 (by decide)

/-! ### C5 / C10 helpers -/

/-- Helper: the clamped chart type always lies in the allowed set. -/
theorem typeClamp_mem (t : Option String) :
    typeClamp t ∈ allowedChartTypes := by
  unfold typeClamp
  split
  · assumption
  · decide

/-- Helper: `buildChartSpecs` once the plan's visuals list is known. -/
theorem buildChartSpecs_some (df : DataFrame) (u : ℕ → String) (k : ℕ)
    (vs : List VisualEntry) (plan : Plan) (hp : plan.visuals = some vs) :
    buildChartSpecs df plan u k =
      if vs = [] then autoCharts df u k
      else
        if (buildFromVisuals df u k vs).1 = [] then
          autoCharts df u (buildFromVisuals df u k vs).2
        else buildFromVisuals df u k vs := by
  unfold buildChartSpecs
  rw [hp]

/-- Helper: any spec surviving `_normalize_visual` carries the clamped type,
the untouched `x`, and no `aggregate`/`top_n` keys. -/
theorem normVisualCore_some_shape (df : DataFrame) (t : Option String)
    (ti x y : PyVal) (p : PreSpec)
    (h : normVisualCore df (.dict t ti x y) = some p) :
    p.type = typeClamp t ∧ p.x = x ∧ p.aggregate = none ∧ p.top_n = none := by
  simp only [normVisualCore] at h
  split at h
  · split at h
    all_goals try split at h
    all_goals first
      | (obtain rfl := Option.some.inj h; exact ⟨rfl, rfl, rfl, rfl⟩)
      | exact absurd h (by simp)
  · exact absurd h (by simp)

/-- Helper: the surviving chart specs are, id apart, exactly the normalized
visual entries in order. -/
theorem buildFromVisuals_map_pre (df : DataFrame) (u : ℕ → String) :
    ∀ (k : ℕ) (vis : List VisualEntry),
      (buildFromVisuals df u k vis).1.map ChartSpec.pre =
        vis.filterMap (normVisualCore df) := by
  intro k vis
  induction vis generalizing k with
  | nil => rfl
  | cons v vs ih =>
    cases hv : normVisualCore df v with
    | none => simp [buildFromVisuals, hv, ih]
    | some p => simp [buildFromVisuals, hv, ih, PreSpec.withId, ChartSpec.pre]

/-- Helper: when every visual entry is dropped, no uuid draw is consumed. -/
theorem buildFromVisuals_nil_k (df : DataFrame) (u : ℕ → String) :
    ∀ (k : ℕ) (vis : List VisualEntry),
      (buildFromVisuals df u k vis).1 = [] →
        (buildFromVisuals df u k vis).2 = k := by
  intro k vis
  induction vis generalizing k with
  | nil => intro _; rfl
  | cons v vs ih =>
    intro h
    cases hv : normVisualCore df v with
    | none =>
      have h2 : (buildFromVisuals df u k vs).1 = [] := by
        simpa [buildFromVisuals, hv] using h
      simpa [buildFromVisuals, hv] using ih k h2
    | some p =>
      rw [show buildFromVisuals df u k (v :: vs) =
        (p.withId (chartId (u k)) :: (buildFromVisuals df u (k + 1) vs).1,
          (buildFromVisuals df u (k + 1) vs).2) by
          simp [buildFromVisuals, hv]] at h
      exact absurd h (by simp)

/-- C5: plan-visual normalization — a string `x` or `y` naming an absent
column drops the entry; a list `y` is filtered to existing columns and the
entry is dropped when none remain; every surviving spec's type is in the
allowed set, with absent or unrecognized types clamped to `"line"`; the
surviving specs are exactly the normalized entries, used verbatim when at
least one survives, and auto-detection is used when none survives. -/
theorem c5_plan_visual_validation (df : DataFrame) (u : ℕ → String) (k : ℕ)
    (plan : Plan) (vis : List VisualEntry)
    (hp : plan.visuals = some vis) (hvis : ¬vis = []) :
    (∀ (t : Option String) (ti y : PyVal) (s : String), s ∉ colNames df →
      normVisualCore df (.dict t ti (PyVal.atom (.pystr s)) y) = none) ∧
    (∀ (t : Option String) (ti x : PyVal) (s : String), s ∉ colNames df →
      normVisualCore df (.dict t ti x (PyVal.atom (.pystr s))) = none) ∧
    (∀ (t : Option String) (ti x : PyVal) (ys : List PyAtom),
      ys.filter (fun c => match c with
        | .pystr s => decide (s ∈ colNames df)
        | _ => false) = [] →
      normVisualCore df (.dict t ti x (PyVal.plist ys)) = none) ∧
    (∀ (t : Option String) (ti x : PyVal) (ys : List PyAtom) (p : PreSpec),
      normVisualCore df (.dict t ti x (PyVal.plist ys)) = some p →
      p.y = PyVal.plist (ys.filter (fun c => match c with
        | .pystr s => decide (s ∈ colNames df)
        | _ => false))) ∧
    (∀ (v : VisualEntry) (p : PreSpec),
      normVisualCore df v = some p → p.type ∈ allowedChartTypes) ∧
    (∀ (t : Option String) (ti x y : PyVal) (p : PreSpec) (s : String),
      normVisualCore df (.dict t ti x y) = some p → t = some s → ¬s = "" →
      pyStrip (pyLower s) ∉ allowedChartTypes → p.type = "line") ∧
    (∀ (ti x y : PyVal) (p : PreSpec),
      normVisualCore df (.dict none ti x y) = some p → p.type = "line") ∧
    ((buildFromVisuals df u k vis).1.map ChartSpec.pre =
      vis.filterMap (normVisualCore df)) ∧
    (¬(buildFromVisuals df u k vis).1 = [] →
      (buildChartSpecs df plan u k).1 = (buildFromVisuals df u k vis).1) ∧
    ((buildFromVisuals df u k vis).1 = [] →
      (buildChartSpecs df plan u k).1 = (autoCharts df u k).1) := by
  refine ⟨?_, ?_, ?_, ?_, ?_, ?_, ?_, ?_, ?_, ?_⟩
  · intro t ti y s hs
    simp [normVisualCore, xOkB, hs]
  · intro t ti x s hs
    simp only [normVisualCore]
    cases hxok : xOkB df x with
    | false => simp [hxok]
    | true => simp [hxok, hs]
  · intro t ti x ys hfil
    simp only [normVisualCore]
    cases hxok : xOkB df x with
    | false => simp [hxok]
    | true => simp [hxok, hfil]
  · intro t ti x ys p h
    simp only [normVisualCore] at h
    split at h
    · split at h
      · exact absurd h (by simp)
      · obtain rfl := Option.some.inj h
        rfl
    · exact absurd h (by simp)
  · intro v p h
    cases v with
    | notDict => exact absurd h (by simp [normVisualCore])
    | dict t ti x y =>
      rw [(normVisualCore_some_shape df t ti x y p h).1]
      exact typeClamp_mem t
  · intro t ti x y p s h ht hne hna
    rw [(normVisualCore_some_shape df t ti x y p h).1, ht]
    unfold typeClamp
    rw [show rawChartType (some s) = s by simp [rawChartType, hne]]
    exact if_neg hna
  · intro ti x y p h
    rw [(normVisualCore_some_shape df none ti x y p h).1]
    decide
  · exact buildFromVisuals_map_pre df u k vis
  · intro hne
    rw [buildChartSpecs_some df u k vis plan hp, if_neg hvis, if_neg hne]
  · intro hnil
    rw [buildChartSpecs_some df u k vis plan hp, if_neg hvis, if_pos hnil,
      buildFromVisuals_nil_k df u k vis hnil]

/-- Witness for C5: a visual whose `y` names an absent column is dropped. -/
theorem c5_witness :
    normVisualCore ⟨[("a", ColData.numeric [some 1])]⟩
      (VisualEntry.dict (some "pie") (strv "T") (strv "a") (strv "zz")) =
      none :=
  ((c5_plan_visual_validation ⟨[("a", ColData.numeric [some 1])]⟩
      (fun _ => "u") 0
      ⟨some [], some [VisualEntry.dict (some "pie") (strv "T") (strv "a")
        (strv "zz")]⟩
      [VisualEntry.dict (some "pie") (strv "T") (strv "a") (strv "zz")]
      rfl (by decide)).2.1) (some "pie") (strv "T") (strv "a") "zz"
    (by decide)

/-- C10 counterexample: a visual whose `x` is the number 7 (a non-null
non-string value) but whose `y` names the absent column `"zzz"`.  The claim
says such an entry "is kept in the chart-spec list without any schema
validation"; the code validates the string `y` and drops the entry, so the
chart-spec list built from this single-entry visuals list is empty. -/
theorem c10_counterexample_numeric_axis_entry_dropped :
    (buildFromVisuals ⟨[("a", ColData.numeric [some 1])]⟩ (fun _ => "u") 0
      [VisualEntry.dict (some "bar") (PyVal.atom .pynull)
        (PyVal.atom (.pyint 7)) (strv "zzz")]).1 = [] := by
  decide

/-- Whether the `y` axis of a visual passes its own schema validation: a
string must name an existing column, a list must retain at least one
existing column, anything else passes unvalidated. -/
def yPasses (df : DataFrame) : PyVal → Prop
  | .atom (.pystr s) => s ∈ colNames df
  | .plist ys => ¬ys.filter (fun c => match c with
      | .pystr s => decide (s ∈ colNames df)
      | _ => false) = []
  | _ => True

/-- The `y` value a kept entry carries: a list is filtered to existing
columns, anything else passes through unchanged. -/
def yNorm (df : DataFrame) : PyVal → PyVal
  | .plist ys => .plist (ys.filter (fun c => match c with
      | .pystr s => decide (s ∈ colNames df)
      | _ => false))
  | y => y

/-- Whether the `x` axis of a visual passes its own schema validation: a
string must name an existing column, anything else (null, number, list)
passes unvalidated. -/
def xPasses (df : DataFrame) : PyVal → Prop
  | .atom (.pystr s) => s ∈ colNames df
  | _ => True

/-- C10 (amended): visual normalization validates `x`/`y` against the schema
only when they are strings (or a list for `y`); an axis of any other shape
undergoes no validation and is embedded verbatim, and the entry is kept
exactly when each axis passes its own validation — trivially so for
non-string `x` and non-string non-list `y` — so the emitted spec may
reference an axis naming no column. -/
theorem c10_amended_per_axis_validation (df : DataFrame)
    (t : Option String) (ti x y : PyVal)
    (hx : xPasses df x) (hy : yPasses df y) :
    normVisualCore df (.dict t ti x y) =
      some ⟨typeClamp t,
        pyStr (if pyTruthy ti then ti else PyVal.atom (.pystr "Chart")),
        x, yNorm df y, none, none⟩ := by
  have hxok : xOkB df x = true := by
    cases x with
    | atom a =>
      cases a with
      | pystr s => exact decide_eq_true hx
      | pynull => rfl
      | pyint n => rfl
      | pyrat q => rfl
    | plist xs => rfl
  simp only [normVisualCore, hxok]
  cases y with
  | atom a =>
    cases a with
    | pystr s =>
      simp only [yPasses] at hy
      simp [hy, yNorm]
    | pynull => simp [yNorm]
    | pyint n => simp [yNorm]
    | pyrat q => simp [yNorm]
  | plist ys =>
    simp only [yPasses] at hy
    simp [hy, yNorm]

/-- Witness for the amended C10 in the region the original exclusion missed:
a valid string `x` with a numeric (non-string, non-list) `y` is kept, the
numeric `y` embedded verbatim with no schema validation. -/
theorem c10_amended_witness :
    normVisualCore ⟨[("a", ColData.numeric [some 1])]⟩
      (VisualEntry.dict (some "bar") (PyVal.atom .pynull)
        (strv "a") (PyVal.atom (.pyint 7))) =
      some ⟨typeClamp (some "bar"),
        pyStr (if pyTruthy (PyVal.atom .pynull) then PyVal.atom .pynull
          else PyVal.atom (.pystr "Chart")),
        strv "a",
        yNorm ⟨[("a", ColData.numeric [some 1])]⟩ (PyVal.atom (.pyint 7)),
        none, none⟩ :=
  c10_amended_per_axis_validation ⟨[("a", ColData.numeric [some 1])]⟩
    (some "bar") (PyVal.atom .pynull) (strv "a") (PyVal.atom (.pyint 7))
    (show "a" ∈ colNames ⟨[("a", ColData.numeric [some 1])]⟩ by decide)
    trivial

/-! ### C9 helpers: the chart-spec list modulo generated ids -/

/-- The id-free content of the auto-detected charts, a function of the
dataset alone. -/
def autoChartsPre (df : DataFrame) : List PreSpec :=
  let s1 : List PreSpec :=
    match dateCols df, numericCols df with
    | d :: _, n :: _ =>
      [⟨"line", "Trend: " ++ n ++ " over time", strv d, strv n, none, none⟩]
    | _, _ => []
  let s2 : List PreSpec :=
    match catCols df, numericCols df with
    | c :: _, n :: _ =>
      s1 ++ [⟨"bar", "Top categories: " ++ n ++ " by " ++ c,
        strv c, strv n, some "sum", some 20⟩]
    | _, _ => s1
  let s3 : List PreSpec :=
    match numericCols df with
    | a :: b :: _ =>
      s2 ++ [⟨"scatter", "Scatter: " ++ a ++ " vs " ++ b,
        strv a, strv b, none, none⟩]
    | _ => s2
  let s4 : List PreSpec :=
    match numericCols df with
    | a :: _ =>
      s3 ++ [⟨"hist", "Distribution: " ++ a, strv a, .atom .pynull,
        none, none⟩]
    | _ => s3
  if s4 = [] then
    match df.cols with
    | c0 :: c1 :: _ =>
      [⟨"line", "Auto Chart", strv c0.1, strv c1.1, none, none⟩]
    | _ => []
  else s4

/-- Helper: the auto-detected charts are, ids apart, a function of the
dataset alone. -/
theorem autoCharts_map_pre (df : DataFrame) (u : ℕ → String) (k : ℕ) :
    (autoCharts df u k).1.map ChartSpec.pre = autoChartsPre df := by
  rcases hn : numericCols df with _ | ⟨n0, _ | ⟨n1, ns⟩⟩
  · rcases hd : dateCols df with _ | ⟨d0, ds⟩ <;>
      rcases hc : catCols df with _ | ⟨c0, cs⟩ <;>
      rcases hcols : df.cols with _ | ⟨p0, _ | ⟨p1, ps⟩⟩ <;>
      simp [autoCharts, autoChartsPre, hn, hd, hc, hcols, ChartSpec.pre]
  · rcases hd : dateCols df with _ | ⟨d0, ds⟩ <;>
      rcases hc : catCols df with _ | ⟨c0, cs⟩ <;>
      simp [autoCharts, autoChartsPre, hn, hd, hc, ChartSpec.pre]
  · rcases hd : dateCols df with _ | ⟨d0, ds⟩ <;>
      rcases hc : catCols df with _ | ⟨c0, cs⟩ <;>
      simp [autoCharts, autoChartsPre, hn, hd, hc, ChartSpec.pre]

/-- Helper: the synthesized chart-spec list is, ids apart, independent of the
uuid supply and of how many draws happened before. -/
theorem buildChartSpecs_map_pre (df : DataFrame) (plan : Plan)
    (u1 u2 : ℕ → String) (k1 k2 : ℕ) :
    (buildChartSpecs df plan u1 k1).1.map ChartSpec.pre =
      (buildChartSpecs df plan u2 k2).1.map ChartSpec.pre := by
  cases hp : plan.visuals with
  | none =>
    unfold buildChartSpecs
    rw [hp]
    rw [autoCharts_map_pre df u1 k1, autoCharts_map_pre df u2 k2]
  | some vs =>
    rw [buildChartSpecs_some df u1 k1 vs plan hp,
      buildChartSpecs_some df u2 k2 vs plan hp]
    by_cases hvs : vs = []
    · rw [if_pos hvs, if_pos hvs,
        autoCharts_map_pre df u1 k1, autoCharts_map_pre df u2 k2]
    · rw [if_neg hvs, if_neg hvs]
      have h1 := buildFromVisuals_map_pre df u1 k1 vs
      have h2 := buildFromVisuals_map_pre df u2 k2 vs
      by_cases hnil : vs.filterMap (normVisualCore df) = []
      · have e1 : (buildFromVisuals df u1 k1 vs).1 = [] :=
          List.map_eq_nil_iff.mp (h1.trans hnil)
        have e2 : (buildFromVisuals df u2 k2 vs).1 = [] :=
          List.map_eq_nil_iff.mp (h2.trans hnil)
        rw [if_pos e1, if_pos e2,
          autoCharts_map_pre df u1 _, autoCharts_map_pre df u2 _]
      · have e1 : ¬(buildFromVisuals df u1 k1 vs).1 = [] := by
          intro hcon
          exact hnil (by rw [← h1, hcon]; rfl)
        have e2 : ¬(buildFromVisuals df u2 k2 vs).1 = [] := by
          intro hcon
          exact hnil (by rw [← h2, hcon]; rfl)
        rw [if_neg e1, if_neg e2, h1, h2]

/-- Helper: the chart list of `build_dashboard` on a non-empty dataset. -/
theorem buildDashboard_charts (u : ℕ → String) (df : DataFrame) (plan : Plan)
    (ins : Report) (h0 : ¬nrows df = 0) :
    (buildDashboard u df plan ins).charts = (buildChartSpecs df plan u 1).1 := by
  unfold buildDashboard
  rw [if_neg h0]

/-- Helper: the meta of `build_dashboard` on a non-empty dataset. -/
theorem buildDashboard_meta (u : ℕ → String) (df : DataFrame) (plan : Plan)
    (ins : Report) (h0 : ¬nrows df = 0) :
    (buildDashboard u df plan ins).meta = DashMeta.full "plotly_html"
      ((buildChartSpecs df plan u 1).1.map (fun c => ⟨c.title, c.type, c.x, c.y⟩))
      (ins.kpis.take 12) (nrows df) (ncols df) := by
  unfold buildDashboard
  rw [if_neg h0]

/-- Helper: the document of `build_dashboard` on a non-empty dataset is the
rendered template over the generated dashboard id, the synthesized chart
specs, and input-determined data. -/
theorem buildDashboard_html (u : ℕ → String) (df : DataFrame) (plan : Plan)
    (ins : Report) (h0 : ¬nrows df = 0) :
    (buildDashboard u df plan ins).html =
      renderHtml ("dash_" ++ String.mk ((u 0).data.take 8)) ins.kpis
        (buildChartSpecs df plan u 1).1 (colNames df)
        (previewRows df (min 200 (nrows df))) ins.summary ins.warnings := by
  unfold buildDashboard
  rw [if_neg h0]

/-- C9 counterexample: identical dataset, plan and insight report, but the
two invocations draw different uuids, so the synthesized chart-spec lists
(and hence the rendered documents embedding them) differ.  The uuid stream
`u` models the fresh `uuid.uuid4()` draws of one invocation. -/
theorem c9_counterexample_uuid_nondeterminism :
    ¬(buildDashboard (fun _ => "aaaaaaaaaaaa")
        ⟨[("a", ColData.numeric [some 1, some 2])]⟩ ⟨some [], some []⟩
        emptyReport).charts =
      (buildDashboard (fun _ => "bbbbbbbbbbbb")
        ⟨[("a", ColData.numeric [some 1, some 2])]⟩ ⟨some [], some []⟩
        emptyReport).charts := by
  decide

/-- C9 (amended): `build_dashboard` is deterministic up to the generated
uuids — for identical `(dataset, plan, insight report)` the chart-spec
lists agree once ids are stripped, the returned `meta` (chart summaries,
KPIs, row and column counts) is identical, and the rendered document
differs only through the embedded generated ids: whenever the two
invocations draw the same dashboard id and end up with the same chart-spec
list, the documents are byte-identical. -/
theorem c9_amended_pure_up_to_ids (u1 u2 : ℕ → String) (df : DataFrame)
    (plan : Plan) (ins : Report) :
    ((buildDashboard u1 df plan ins).charts.map ChartSpec.pre =
      (buildDashboard u2 df plan ins).charts.map ChartSpec.pre) ∧
    ((buildDashboard u1 df plan ins).meta =
      (buildDashboard u2 df plan ins).meta) ∧
    ("dash_" ++ String.mk ((u1 0).data.take 8) =
        "dash_" ++ String.mk ((u2 0).data.take 8) →
      (buildChartSpecs df plan u1 1).1 = (buildChartSpecs df plan u2 1).1 →
      (buildDashboard u1 df plan ins).html =
        (buildDashboard u2 df plan ins).html) := by
  by_cases h0 : nrows df = 0
  · refine ⟨?_, ?_, ?_⟩
    · unfold buildDashboard
      rw [if_pos h0, if_pos h0]
    · unfold buildDashboard
      rw [if_pos h0, if_pos h0]
    · intro _ _
      unfold buildDashboard
      rw [if_pos h0, if_pos h0]
  · have hpre := buildChartSpecs_map_pre df plan u1 u2 1 1
    refine ⟨?_, ?_, ?_⟩
    · rw [buildDashboard_charts u1 df plan ins h0,
        buildDashboard_charts u2 df plan ins h0]
      exact hpre
    · rw [buildDashboard_meta u1 df plan ins h0,
        buildDashboard_meta u2 df plan ins h0]
      have hm : (buildChartSpecs df plan u1 1).1.map
            (fun c => (⟨c.title, c.type, c.x, c.y⟩ : ChartMeta)) =
          (buildChartSpecs df plan u2 1).1.map
            (fun c => (⟨c.title, c.type, c.x, c.y⟩ : ChartMeta)) := by
        calc (buildChartSpecs df plan u1 1).1.map
              (fun c => (⟨c.title, c.type, c.x, c.y⟩ : ChartMeta))
            = ((buildChartSpecs df plan u1 1).1.map ChartSpec.pre).map
              (fun p => (⟨p.title, p.type, p.x, p.y⟩ : ChartMeta)) := by
              rw [List.map_map]
              rfl
          _ = ((buildChartSpecs df plan u2 1).1.map ChartSpec.pre).map
              (fun p => (⟨p.title, p.type, p.x, p.y⟩ : ChartMeta)) := by
              rw [hpre]
          _ = (buildChartSpecs df plan u2 1).1.map
              (fun c => (⟨c.title, c.type, c.x, c.y⟩ : ChartMeta)) := by
              rw [List.map_map]
              rfl
      rw [hm]
    · intro hdash hcharts
      rw [buildDashboard_html u1 df plan ins h0,
        buildDashboard_html u2 df plan ins h0, hdash, hcharts]

/-- Witness for the amended C9: two distinct uuid streams whose relevant
draws coincide on the first 8 hex characters yield the identical
document. -/
theorem c9_amended_witness :
    (buildDashboard (fun _ => "aaaaaaaa")
        ⟨[("a", ColData.numeric [some 1, some 2])]⟩ ⟨some [], some []⟩
        emptyReport).html =
      (buildDashboard (fun _ => "aaaaaaaazzz")
        ⟨[("a", ColData.numeric [some 1, some 2])]⟩ ⟨some [], some []⟩
        emptyReport).html :=
  (c9_amended_pure_up_to_ids (fun _ => "aaaaaaaa") (fun _ => "aaaaaaaazzz")
      ⟨[("a", ColData.numeric [some 1, some 2])]⟩ ⟨some [], some []⟩
      emptyReport).2.2 (by decide) (by decide)
